import Mathlib

/-!
Shallow embedding of the `image_counter_bot` repository.

The SQLite tables of `src/database/repository.py` are modelled as lists of
row structures inside a `Database` record; every repository method becomes a
pure Lean function over that record (methods that read the wall clock take
the current day as an explicit `today` argument).

Modelling conventions:
* Dates are day indices (`Nat`).  The repository stores dates as
  `YYYY-MM-DD` strings and compares them with SQLite's `date(...)`; on the
  day-index abstraction `date(created_at) < date('now', '-N days')` becomes
  `created_at + N < today`, and the `DD.MM.YYYY` display reformatting of
  `sheets.py` (injective on well-formed dates) becomes the identity
  rendering `toString`.
* SQL `INSERT ... ON CONFLICT ... DO UPDATE` is modelled as: if a row with
  the conflicting key exists, update the matching rows in place, else append
  the freshly inserted row.  `INSERT OR REPLACE` deletes the conflicting row
  and appends the new one.
* `SELECT DISTINCT` is modelled with `List.dedup`.  The `ORDER BY` clauses
  of `get_unique_dates` are kept (ascending insertion sort on day indices);
  the `ORDER BY ac.city` of `get_cities_with_data_for_date` only permutes
  the output and is omitted (String order does not reduce in the kernel and
  no property below depends on the ordering of that list).
-/

namespace ImageCounterBot

/-- Row of the `active_chats` table. -/
structure ActiveChatRow where
  chat_id : Int
  created_at : Nat
  city : String
  deriving DecidableEq, Repr

/-- Row of the `image_counts` table (primary key `(chat_id, topic_id, date)`). -/
structure ImageCountRow where
  chat_id : Int
  topic_id : Int
  date : Nat
  count : Int
  deriving DecidableEq, Repr

/-- Row of the `chat_titles` table. -/
structure ChatTitleRow where
  chat_id : Int
  title : String
  deriving DecidableEq, Repr

/-- Row of the `topic_titles` table (primary key `(chat_id, topic_id)`). -/
structure TopicTitleRow where
  chat_id : Int
  topic_id : Int
  title : String
  type : String
  deriving DecidableEq, Repr

/-- Row of the `reaction_counts` table (primary key `(chat_id, topic_id, date)`). -/
structure ReactionCountRow where
  chat_id : Int
  topic_id : Int
  date : Nat
  positive_count : Int
  negative_count : Int
  deriving DecidableEq, Repr

/-- Row of the `message_topics` table (primary key `(chat_id, message_id)`). -/
structure MessageTopicRow where
  chat_id : Int
  message_id : Int
  topic_id : Int
  created_at : Nat
  deriving DecidableEq, Repr

/-- The six tables created by `Database._init_db`. -/
structure Database where
  active_chats : List ActiveChatRow
  image_counts : List ImageCountRow
  chat_titles : List ChatTitleRow
  topic_titles : List TopicTitleRow
  reaction_counts : List ReactionCountRow
  message_topics : List MessageTopicRow
  deriving DecidableEq, Repr

/-- A database with all six tables empty. -/
def emptyDb : Database := ⟨[], [], [], [], [], []⟩

/-- `Database.add_active_chat`: `INSERT INTO active_chats ... VALUES (?, ?, 'Не указан')`;
the duplicate-key `sqlite3.IntegrityError` is caught and turned into `False`. -/
def add_active_chat (s : Database) (today : Nat) (chat_id : Int) : Bool × Database :=
  if s.active_chats.any (fun r => r.chat_id == chat_id) then
    (false, s)
  else
    (true, { s with active_chats :=
      s.active_chats ++ [⟨chat_id, today, "Не указан"⟩] })

/-- `Database.remove_active_chat`: `DELETE FROM active_chats WHERE chat_id = ?`,
returning `cursor.rowcount > 0`. -/
def remove_active_chat (s : Database) (chat_id : Int) : Bool × Database :=
  (0 < s.active_chats.countP (fun r => r.chat_id == chat_id),
   { s with active_chats := s.active_chats.filter (fun r => !(r.chat_id == chat_id)) })

/-- `Database.is_chat_active`: `SELECT 1 FROM active_chats WHERE chat_id = ?`. -/
def is_chat_active (s : Database) (chat_id : Int) : Bool :=
  s.active_chats.any (fun r => r.chat_id == chat_id)

/-- `Database.increment_image_count`: atomic upsert-add on the
`(chat_id, topic_id, today)` row of `image_counts`. -/
def increment_image_count (s : Database) (today : Nat) (chat_id topic_id : Int)
    (count : Int) : Database :=
  if s.image_counts.any (fun r =>
      r.chat_id == chat_id && r.topic_id == topic_id && r.date == today) then
    { s with image_counts := s.image_counts.map (fun r =>
        if r.chat_id == chat_id && r.topic_id == topic_id && r.date == today then
          { r with count := r.count + count }
        else r) }
  else
    { s with image_counts := s.image_counts ++ [⟨chat_id, topic_id, today, count⟩] }

/-- `Database.get_image_count`: `SELECT count FROM image_counts WHERE ...`,
`0` when no row matches. -/
def get_image_count (s : Database) (chat_id topic_id : Int) (date : Nat) : Int :=
  match s.image_counts.find? (fun r =>
      r.chat_id == chat_id && r.topic_id == topic_id && r.date == date) with
  | some r => r.count
  | none => 0

/-- Ascending insertion of a day index into a sorted list
(used to model `ORDER BY date`). -/
def insert_sorted (x : Nat) : List Nat → List Nat
  | [] => [x]
  | y :: ys => if x ≤ y then x :: y :: ys else y :: insert_sorted x ys

/-- Ascending sort of day indices (used to model `ORDER BY date`). -/
def sort_nat (l : List Nat) : List Nat := l.foldr insert_sorted []

/-- `Database.get_unique_dates`: `SELECT DISTINCT date FROM image_counts ORDER BY date`. -/
def get_unique_dates (s : Database) : List Nat :=
  sort_nat ((s.image_counts.map (fun r => r.date)).dedup)

/-- `Database.get_image_count_by_city_type_date`: sum of `image_counts.count`
over every `active_chats` row with the given city and every `topic_titles`
row of that chat with the given type, looking up the `(chat, topic, date)`
count row.  The Python accumulation `total += count_row["count"]` over the
same nested loops (with `0` for a missing row, and an early `return 0` when
the city has no chats) is this sum of sums. -/
def get_image_count_by_city_type_date (s : Database) (city topic_type : String)
    (date : Nat) : Int :=
  ((s.active_chats.filter (fun ac => ac.city == city)).map (fun ac =>
    ((s.topic_titles.filter (fun tt =>
        tt.chat_id == ac.chat_id && tt.type == topic_type)).map (fun tt =>
      match s.image_counts.find? (fun ic =>
          ic.chat_id == ac.chat_id && ic.topic_id == tt.topic_id && ic.date == date) with
      | some ic => ic.count
      | none => 0)).sum)).sum

/-- `Database.get_cities_with_data_for_date`: `SELECT DISTINCT ac.city` over the
inner join of `active_chats`, `image_counts` (same chat, given date) and
`topic_titles` (same chat and topic, `type != 'Не указан'`).  `ORDER BY
ac.city` is omitted (it only permutes the result). -/
def get_cities_with_data_for_date (s : Database) (date : Nat) : List String :=
  ((s.active_chats.filter (fun ac =>
      s.image_counts.any (fun ic =>
        ic.chat_id == ac.chat_id && ic.date == date &&
        s.topic_titles.any (fun tt =>
          tt.chat_id == ic.chat_id && tt.topic_id == ic.topic_id &&
          tt.type != "Не указан")))).map (fun ac => ac.city)).dedup

/-- `Database.update_chat_title`: upsert of `chat_titles`, on conflict only the
`title` column is overwritten. -/
def update_chat_title (s : Database) (chat_id : Int) (title : String) : Database :=
  if s.chat_titles.any (fun r => r.chat_id == chat_id) then
    { s with chat_titles := s.chat_titles.map (fun r =>
        if r.chat_id == chat_id then { r with title := title } else r) }
  else
    { s with chat_titles := s.chat_titles ++ [⟨chat_id, title⟩] }

/-- `Database.update_topic_title`: upsert of `topic_titles`; a fresh row is
inserted with `type = 'Не указан'`, on conflict only `title` is overwritten. -/
def update_topic_title (s : Database) (chat_id topic_id : Int) (title : String) :
    Database :=
  if s.topic_titles.any (fun r => r.chat_id == chat_id && r.topic_id == topic_id) then
    { s with topic_titles := s.topic_titles.map (fun r =>
        if r.chat_id == chat_id && r.topic_id == topic_id then
          { r with title := title }
        else r) }
  else
    { s with topic_titles :=
        s.topic_titles ++ [⟨chat_id, topic_id, title, "Не указан"⟩] }

/-- `Database.set_topic_type`: upsert of `topic_titles`; a fresh row is inserted
with the placeholder title `f"Топик {topic_id}"`, on conflict only `type` is
overwritten.  The method always returns `True`. -/
def set_topic_type (s : Database) (chat_id topic_id : Int) (topic_type : String) :
    Bool × Database :=
  if s.topic_titles.any (fun r => r.chat_id == chat_id && r.topic_id == topic_id) then
    (true, { s with topic_titles := s.topic_titles.map (fun r =>
        if r.chat_id == chat_id && r.topic_id == topic_id then
          { r with type := topic_type }
        else r) })
  else
    (true, { s with topic_titles :=
        s.topic_titles ++ [⟨chat_id, topic_id, s!"Топик {topic_id}", topic_type⟩] })

/-- Observer for the `topic_titles` row of a `(chat_id, topic_id)` key, the way
the repository's `SELECT ... FROM topic_titles WHERE chat_id = ? AND
topic_id = ?` reads it. -/
def topic_row (s : Database) (chat_id topic_id : Int) : Option TopicTitleRow :=
  s.topic_titles.find? (fun r => r.chat_id == chat_id && r.topic_id == topic_id)

/-- `Database.get_topic_type`: the stored `type`, `'Не указан'` when no row. -/
def get_topic_type (s : Database) (chat_id topic_id : Int) : String :=
  match topic_row s chat_id topic_id with
  | some r => r.type
  | none => "Не указан"

/-- `Database.get_chat_title`: the stored title, `str(chat_id)` when no row. -/
def get_chat_title (s : Database) (chat_id : Int) : String :=
  match s.chat_titles.find? (fun r => r.chat_id == chat_id) with
  | some r => r.title
  | none => toString chat_id

/-- `Database.get_topic_title`: `"General"` for topic id `0`, else the stored
title, with fallback `f"Топик {topic_id}"`. -/
def get_topic_title (s : Database) (chat_id topic_id : Int) : String :=
  if topic_id == 0 then "General"
  else
    match topic_row s chat_id topic_id with
    | some r => r.title
    | none => s!"Топик {topic_id}"

/-- `Database.update_reaction_count`: atomic upsert on `reaction_counts`; a
fresh row is inserted with `MAX(0, delta)` in each column, on conflict each
column becomes `MAX(0, column + delta)`. -/
def update_reaction_count (s : Database) (today : Nat) (chat_id topic_id : Int)
    (positive_delta negative_delta : Int) : Database :=
  if s.reaction_counts.any (fun r =>
      r.chat_id == chat_id && r.topic_id == topic_id && r.date == today) then
    { s with reaction_counts := s.reaction_counts.map (fun r =>
        if r.chat_id == chat_id && r.topic_id == topic_id && r.date == today then
          { r with positive_count := max 0 (r.positive_count + positive_delta),
                   negative_count := max 0 (r.negative_count + negative_delta) }
        else r) }
  else
    { s with reaction_counts := s.reaction_counts ++
        [⟨chat_id, topic_id, today, max 0 positive_delta, max 0 negative_delta⟩] }

/-- Observer for the stored `(positive_count, negative_count)` of one
`(chat, topic, date)` row of `reaction_counts`, the way the `SELECT
positive_count, negative_count` inside `get_reaction_count_by_city_date`
reads it ( `(0, 0)` when no row). -/
def get_reaction_counts (s : Database) (chat_id topic_id : Int) (date : Nat) :
    Int × Int :=
  match s.reaction_counts.find? (fun r =>
      r.chat_id == chat_id && r.topic_id == topic_id && r.date == date) with
  | some r => (r.positive_count, r.negative_count)
  | none => (0, 0)

/-- `Database.save_message_topic`: `INSERT OR REPLACE INTO message_topics`. -/
def save_message_topic (s : Database) (today : Nat) (chat_id message_id topic_id : Int) :
    Database :=
  { s with message_topics :=
      s.message_topics.filter (fun r =>
        !(r.chat_id == chat_id && r.message_id == message_id)) ++
      [⟨chat_id, message_id, topic_id, today⟩] }

/-- `Database.get_topic_by_message`: the stored `topic_id` for a
`(chat_id, message_id)` key, `None` when no row. -/
def get_topic_by_message (s : Database) (chat_id message_id : Int) : Option Int :=
  (s.message_topics.find? (fun r =>
      r.chat_id == chat_id && r.message_id == message_id)).map (fun r => r.topic_id)

/-- `Database.cleanup_old_message_topics`: `DELETE FROM message_topics WHERE
date(created_at) < date('now', '-' || ? || ' days')`, returning
`cursor.rowcount`.  On day indices the deletion condition
`created_at < today - days` is written `created_at + days < today`. -/
def cleanup_old_message_topics (s : Database) (today : Nat) (days : Nat) :
    Nat × Database :=
  (s.message_topics.countP (fun r => r.created_at + days < today),
   { s with message_topics :=
       s.message_topics.filter (fun r => !(r.created_at + days < today : Bool)) })

/-- `Database.get_reaction_count_by_city_date`: sums `positive_count` and
`negative_count` over every chat of the city and every topic of that chat
whose type is the reserved `"Продукция"`, at the given date. -/
def get_reaction_count_by_city_date (s : Database) (city : String) (date : Nat) :
    Int × Int :=
  ((s.active_chats.filter (fun ac => ac.city == city)).map (fun ac =>
    ((s.topic_titles.filter (fun tt =>
        tt.chat_id == ac.chat_id && tt.type == "Продукция")).map (fun tt =>
      match s.reaction_counts.find? (fun r =>
          r.chat_id == ac.chat_id && r.topic_id == tt.topic_id && r.date == date) with
      | some r => (r.positive_count, r.negative_count)
      | none => ((0 : Int), (0 : Int)))).foldl
        (fun acc p => (acc.1 + p.1, acc.2 + p.2)) ((0 : Int), (0 : Int)))).foldl
    (fun acc p => (acc.1 + p.1, acc.2 + p.2)) ((0 : Int), (0 : Int))

/-! ### `src/services/sheets.py` -/

/-- A spreadsheet cell: the report rows mix text and numbers. -/
inductive Cell where
  | str : String → Cell
  | int : Int → Cell
  deriving DecidableEq, Repr

/-- `sheets.TOPIC_TYPES`: the fixed topic-type columns, in declared order. -/
def TOPIC_TYPES : List String :=
  ["Списание Продуктов", "Чистота", "Выручка и закупки", "Заготовки",
   "Обсуждение", "Брендированная упаковка", "Продукция"]

/-- `sheets.REACTION_COLUMNS`. -/
def REACTION_COLUMNS : List String := ["Лайки", "Дизлайки"]

/-- `config.SYNC_BATCH_SIZE`. -/
def SYNC_BATCH_SIZE : Nat := 20

/-- `config.COUNT_EACH_PHOTO_IN_ALBUM` (the album-counting toggle). -/
def COUNT_EACH_PHOTO_IN_ALBUM : Bool := true

/-- The `headers` list built in `sync_to_sheets`. -/
def headers_row : List Cell :=
  (["Дата", "Город"] ++ TOPIC_TYPES ++ REACTION_COLUMNS).map Cell.str

/-- `GoogleSheetsService._format_date` on the day-index abstraction: the
`YYYY-MM-DD` → `DD.MM.YYYY` reformatting is injective on stored dates, so it
is modelled as the identity rendering of the day index. -/
def format_date (d : Nat) : String := toString d

/-- One data row of `sync_to_sheets`:
`[formatted_date, city, <count per topic type>, positive, negative]`. -/
def build_row (s : Database) (d : Nat) (city : String) : List Cell :=
  [Cell.str (format_date d), Cell.str city]
  ++ TOPIC_TYPES.map (fun topic_type =>
       Cell.int (get_image_count_by_city_type_date s city topic_type d))
  ++ [Cell.int (get_reaction_count_by_city_date s city d).1,
      Cell.int (get_reaction_count_by_city_date s city d).2]

/-- The `(date, city)` pairs in the order the row-building double loop of
`sync_to_sheets` visits them. -/
def sync_pairs (s : Database) : List (Nat × String) :=
  (get_unique_dates s).flatMap (fun d =>
    (get_cities_with_data_for_date s d).map (fun city => (d, city)))

/-- The `rows` list built by `sync_to_sheets` (one `build_row` per visited
`(date, city)` pair). -/
def sync_rows (s : Database) : List (List Cell) :=
  (sync_pairs s).map (fun p => build_row s p.1 p.2)

/-- One operation against the external spreadsheet sink.  `writeBatch r v`
is `_write_batch` at anchor cell `A{r}` with the block `v`. -/
inductive SinkOp where
  | ensureSheet : SinkOp
  | clearSheet : SinkOp
  | writeBatch : Nat → List (List Cell) → SinkOp
  | autoResize : Nat → SinkOp
  deriving DecidableEq, Repr

/-- The `for i in range(0, total_rows, SYNC_BATCH_SIZE)` loop of
`sync_to_sheets`: each step writes `rows[i:i+SYNC_BATCH_SIZE]` at anchor row
`i + 2`. -/
def batch_ops (rows : List (List Cell)) (i : Nat) : List SinkOp :=
  if h : rows = [] then []
  else
    SinkOp.writeBatch (i + 2) (rows.take SYNC_BATCH_SIZE)
    :: batch_ops (rows.drop SYNC_BATCH_SIZE) (i + SYNC_BATCH_SIZE)
termination_by rows.length
decreasing_by
  simp only [List.length_drop]
  exact Nat.sub_lt (List.length_pos.mpr h) (by decide)

/-- The block of cells a sink operation writes (`[]` for non-write
operations). -/
def batch_values : SinkOp → List (List Cell)
  | SinkOp.writeBatch _ v => v
  | _ => []

/-- `GoogleSheetsService.sync_to_sheets` as the trace of sink operations it
performs: early return (empty trace) when there are no dates or no rows,
else ensure the sheet exists, clear it, write the header block at `A1`, then
the data rows in batches, then auto-resize the columns. -/
def sync_to_sheets (s : Database) : List SinkOp :=
  if get_unique_dates s = [] then []
  else
    let rows := sync_rows s
    if rows = [] then []
    else
      [SinkOp.ensureSheet, SinkOp.clearSheet, SinkOp.writeBatch 1 [headers_row]]
      ++ batch_ops rows 0
      ++ [SinkOp.autoResize headers_row.length]

/-! ### `src/bot/handlers.py` -/

/-- The fields of an inbound photo message the handlers read.
`forum_topic_edited` is `some name?` when the event payload carries a
`forum_topic_edited` object whose `.name` is `name?`;
`reply_to_forum_topic_created` is the name inside
`message.reply_to_message.forum_topic_created`, when both exist. -/
structure PhotoMessage where
  chat_id : Int
  message_thread_id : Option Int
  message_id : Int
  chat_title : Option String
  forum_topic_created : Option String
  forum_topic_edited : Option (Option String)
  reply_to_forum_topic_created : Option String
  media_group_id : Option Int
  deriving DecidableEq, Repr

/-- `handlers.get_topic_id`: `message.message_thread_id or 0`. -/
def get_topic_id (m : PhotoMessage) : Int :=
  m.message_thread_id.getD 0

/-- `handlers.update_titles_from_message`: opportunistic chat-title upsert,
then topic-title upserts for creation events, named edit events, and
replies to a topic-creation message (the latter only for `topic_id != 0`). -/
def update_titles_from_message (s : Database) (m : PhotoMessage) : Database :=
  let c := m.chat_id
  let t := get_topic_id m
  let s1 := match m.chat_title with
    | some title => update_chat_title s c title
    | none => s
  let s2 := match m.forum_topic_created with
    | some nm => update_topic_title s1 c t nm
    | none => s1
  let s3 := match m.forum_topic_edited with
    | some (some nm) => update_topic_title s2 c t nm
    | _ => s2
  if t != 0 then
    match m.reply_to_forum_topic_created with
    | some nm => update_topic_title s3 c t nm
    | none => s3
  else s3

/-- `handlers.handle_photo`: update titles, drop the event when the chat is
inactive, otherwise increment the image count.  Both branches of the
album-counting toggle compute `count = 1`; the toggle is passed as a
parameter so that statements can quantify over its value. -/
def handle_photo (s : Database) (count_each_photo_in_album : Bool) (today : Nat)
    (m : PhotoMessage) : Database :=
  let chat_id := m.chat_id
  let topic_id := get_topic_id m
  let s1 := update_titles_from_message s m
  if !(is_chat_active s1 chat_id) then s1
  else
    let count : Int :=
      if count_each_photo_in_album then 1
      else if m.media_group_id.isSome then 1 else 1
    increment_image_count s1 today chat_id topic_id count

/-- Folding a list of `increment_image_count` calls for one `(chat, topic)`
over one day, front to back. -/
def apply_increments (s : Database) (today : Nat) (c t : Int) (ns : List Int) :
    Database :=
  ns.foldl (fun acc n => increment_image_count acc today c t n) s

/-- The clamped accumulation step of the reaction counter:
`count' = max(0, count + delta)`. -/
def clamp_step (acc delta : Int) : Int := max 0 (acc + delta)

/-- The spec's reference computation for a reaction column: the signed deltas
applied one at a time, clamping at zero at each step, starting from `0`. -/
def clamp_fold (deltas : List Int) : Int := deltas.foldl clamp_step 0

/-- Folding a list of `update_reaction_count` calls (one `(positive_delta,
negative_delta)` pair each) for one `(chat, topic)` over one day. -/
def apply_reaction_deltas (s : Database) (today : Nat) (c t : Int)
    (deltas : List (Int × Int)) : Database :=
  deltas.foldl (fun acc d => update_reaction_count acc today c t d.1 d.2) s

/-- A small populated database used to instantiate the theorems below:
chat `100` is active in city `"Москва"`, its topic `5` has the explicitly
set type `"Чистота"`, and `3` images are counted for `(100, 5)` on day `0`. -/
def sampleDb : Database :=
  { active_chats := [⟨100, 0, "Москва"⟩],
    image_counts := [⟨100, 5, 0, 3⟩],
    chat_titles := [],
    topic_titles := [⟨100, 5, "Уборка", "Чистота"⟩],
    reaction_counts := [],
    message_topics := [] }

/-! ### Shared list helpers -/

/-- A `find?` over a list with no satisfying element is `none`. -/
theorem find?_of_any_eq_false {α : Type} {p : α → Bool} {l : List α}
    (h : l.any p = false) : l.find? p = none := by
  rw [List.find?_eq_none]
  intro x hx hpx
  exact (List.any_eq_false.mp h x hx) hpx

/-- Appending a satisfying element to a list with no satisfying element makes
`find?` return it. -/
theorem find?_append_singleton {α : Type} {p : α → Bool} {l : List α} {x : α}
    (hl : l.find? p = none) (hx : p x = true) : (l ++ [x]).find? p = some x := by
  rw [List.find?_append, hl]
  simp [List.find?, hx]

/-- `find?` commutes with a map that does not change whether the predicate
holds. -/
theorem find?_map_of_pres {α : Type} {p : α → Bool} {f : α → α}
    (hf : ∀ a, p (f a) = p a) (l : List α) :
    (l.map f).find? p = (l.find? p).map f := by
  rw [List.find?_map]
  have hpf : p ∘ f = p := funext hf
  rw [hpf]

/-- After filtering out every element satisfying `p`, no element satisfies
`p`. -/
theorem any_filter_not {α : Type} (p : α → Bool) (l : List α) :
    (l.filter (fun r => !(p r))).any p = false := by
  rw [List.any_eq_false]
  intro x hx
  rw [List.mem_filter] at hx
  simpa using hx.2

/-- A satisfied `find?` on a list makes `any` true. -/
theorem any_of_find?_eq_some {α : Type} {p : α → Bool} {l : List α} {r : α}
    (h : l.find? p = some r) : l.any p = true := by
  rw [List.any_eq_true]
  exact ⟨r, List.mem_of_find?_eq_some h, List.find?_some h⟩

/-- `any` false gives `find?` none and conversely. -/
theorem any_eq_false_iff_find?_eq_none {α : Type} {p : α → Bool} {l : List α} :
    l.any p = false ↔ l.find? p = none := by
  constructor
  · exact find?_of_any_eq_false
  · intro h
    rw [List.any_eq_false]
    intro x hx hpx
    rw [List.find?_eq_none] at h
    exact h x hx hpx

/-! ### Counter step and fold lemmas -/

/-- `find?` over a conditional in-place update: the first satisfying element
is the updated image of the first satisfying element of the original list,
provided the update keeps the predicate satisfied. -/
theorem find?_ite_map {α : Type} (p : α → Bool) (f : α → α)
    (hpt : ∀ a, p a = true → p (f a) = true) (l : List α) :
    (l.map (fun a => if p a then f a else a)).find? p = (l.find? p).map f := by
  induction l with
  | nil => rfl
  | cons x xs ih =>
    by_cases hx : p x
    · simp [List.find?_cons, hx, hpt x hx]
    · simp [List.find?_cons, hx, ih]

/-- One `increment_image_count` call adds exactly its `count` argument to the
stored count of the touched `(chat, topic, today)` row. -/
theorem get_image_count_increment (s : Database) (today : Nat) (c t n : Int) :
    get_image_count (increment_image_count s today c t n) c t today =
      get_image_count s c t today + n := by
  have hmap := find?_ite_map
    (fun r : ImageCountRow => r.chat_id == c && r.topic_id == t && r.date == today)
    (fun r => { r with count := r.count + n }) (fun a ha => ha) s.image_counts
  unfold increment_image_count get_image_count
  cases hany : s.image_counts.any
      (fun r => r.chat_id == c && r.topic_id == t && r.date == today) with
  | true =>
    simp only [hany]
    rw [if_pos trivial]
    simp only [hmap]
    rcases hfind : s.image_counts.find?
        (fun r => r.chat_id == c && r.topic_id == t && r.date == today) with _ | r
    · rw [any_eq_false_iff_find?_eq_none.mpr hfind] at hany
      cases hany
    · simp [hmap, hfind]
  | false =>
    rw [if_neg (by simp)]
    have hnone := find?_of_any_eq_false hany
    have hnew : (fun r : ImageCountRow =>
        r.chat_id == c && r.topic_id == t && r.date == today)
        ⟨c, t, today, n⟩ = true := by simp
    simp [find?_append_singleton hnone hnew, hnone]

/-- A whole sequence of increments adds exactly the sum of its arguments. -/
theorem get_image_count_apply_increments (today : Nat) (c t : Int)
    (ns : List Int) : ∀ s : Database,
    get_image_count (apply_increments s today c t ns) c t today =
      get_image_count s c t today + ns.sum := by
  induction ns with
  | nil => intro s; simp [apply_increments]
  | cons n ns ih =>
    intro s
    have h1 : apply_increments s today c t (n :: ns) =
        apply_increments (increment_image_count s today c t n) today c t ns := rfl
    rw [h1, ih, get_image_count_increment, List.sum_cons]
    ring

/-- One `update_reaction_count` call clamps each reaction column of the
touched `(chat, topic, today)` row at zero after adding its delta. -/
theorem get_reaction_counts_update (s : Database) (today : Nat) (c t pd nd : Int) :
    get_reaction_counts (update_reaction_count s today c t pd nd) c t today =
      (max 0 ((get_reaction_counts s c t today).1 + pd),
       max 0 ((get_reaction_counts s c t today).2 + nd)) := by
  have hmap := find?_ite_map
    (fun r : ReactionCountRow => r.chat_id == c && r.topic_id == t && r.date == today)
    (fun r => { r with positive_count := max 0 (r.positive_count + pd),
                       negative_count := max 0 (r.negative_count + nd) })
    (fun a ha => ha) s.reaction_counts
  unfold update_reaction_count get_reaction_counts
  cases hany : s.reaction_counts.any
      (fun r => r.chat_id == c && r.topic_id == t && r.date == today) with
  | true =>
    simp only [hany]
    rw [if_pos trivial]
    simp only [hmap]
    rcases hfind : s.reaction_counts.find?
        (fun r => r.chat_id == c && r.topic_id == t && r.date == today) with _ | r
    · rw [any_eq_false_iff_find?_eq_none.mpr hfind] at hany
      cases hany
    · simp [hmap, hfind]
  | false =>
    rw [if_neg (by simp)]
    have hnone := find?_of_any_eq_false hany
    have hnew : (fun r : ReactionCountRow =>
        r.chat_id == c && r.topic_id == t && r.date == today)
        ⟨c, t, today, max 0 pd, max 0 nd⟩ = true := by simp
    simp [find?_append_singleton hnone hnew, hnone]

/-- A sequence of reaction updates performs clamped accumulation on each
column independently, starting from whatever the row held. -/
theorem get_reaction_counts_apply (today : Nat) (c t : Int)
    (deltas : List (Int × Int)) : ∀ (s : Database) (a b : Int),
    get_reaction_counts s c t today = (a, b) →
    get_reaction_counts (apply_reaction_deltas s today c t deltas) c t today =
      ((deltas.map Prod.fst).foldl clamp_step a,
       (deltas.map Prod.snd).foldl clamp_step b) := by
  induction deltas with
  | nil => intro s a b h; simpa [apply_reaction_deltas] using h
  | cons d ds ih =>
    intro s a b h
    have h1 : apply_reaction_deltas s today c t (d :: ds) =
        apply_reaction_deltas (update_reaction_count s today c t d.1 d.2)
          today c t ds := rfl
    have h2 : get_reaction_counts (update_reaction_count s today c t d.1 d.2)
        c t today = (clamp_step a d.1, clamp_step b d.2) := by
      rw [get_reaction_counts_update, h]
      rfl
    rw [h1, ih _ _ _ h2]
    simp [List.foldl_cons]

/-- Clamped accumulation never leaves the nonnegative range. -/
theorem clamp_foldl_nonneg (l : List Int) : ∀ a : Int, 0 ≤ a →
    0 ≤ l.foldl clamp_step a := by
  induction l with
  | nil => intro a ha; simpa using ha
  | cons x xs ih =>
    intro a _
    rw [List.foldl_cons]
    exact ih (clamp_step a x) (le_max_left 0 (a + x))

/-! ### Frame lemmas -/

/-- `update_chat_title` keeps `active_chats` unchanged. -/
theorem update_chat_title_active_chats (s : Database) (c : Int) (ti : String) :
    (update_chat_title s c ti).active_chats = s.active_chats := by
  unfold update_chat_title
  split <;> rfl

/-- `update_chat_title` keeps `image_counts` unchanged. -/
theorem update_chat_title_image_counts (s : Database) (c : Int) (ti : String) :
    (update_chat_title s c ti).image_counts = s.image_counts := by
  unfold update_chat_title
  split <;> rfl

/-- `update_chat_title` keeps `message_topics` unchanged. -/
theorem update_chat_title_message_topics (s : Database) (c : Int) (ti : String) :
    (update_chat_title s c ti).message_topics = s.message_topics := by
  unfold update_chat_title
  split <;> rfl

/-- `update_topic_title` keeps `active_chats` unchanged. -/
theorem update_topic_title_active_chats (s : Database) (c t : Int) (ti : String) :
    (update_topic_title s c t ti).active_chats = s.active_chats := by
  unfold update_topic_title
  split <;> rfl

/-- `update_topic_title` keeps `image_counts` unchanged. -/
theorem update_topic_title_image_counts (s : Database) (c t : Int) (ti : String) :
    (update_topic_title s c t ti).image_counts = s.image_counts := by
  unfold update_topic_title
  split <;> rfl

/-- `update_topic_title` keeps `message_topics` unchanged. -/
theorem update_topic_title_message_topics (s : Database) (c t : Int) (ti : String) :
    (update_topic_title s c t ti).message_topics = s.message_topics := by
  unfold update_topic_title
  split <;> rfl

/-- The opportunistic title updates of `update_titles_from_message` touch
neither the active-chat registrations, nor the image counts, nor the
message→topic index. -/
theorem update_titles_from_message_frame (s : Database) (m : PhotoMessage) :
    (update_titles_from_message s m).active_chats = s.active_chats ∧
    (update_titles_from_message s m).image_counts = s.image_counts ∧
    (update_titles_from_message s m).message_topics = s.message_topics := by
  unfold update_titles_from_message
  refine ⟨?_, ?_, ?_⟩ <;>
  · rcases m.chat_title with _ | ti <;>
      rcases m.forum_topic_created with _ | nm1 <;>
      rcases m.forum_topic_edited with _ | onm <;>
      rcases m.reply_to_forum_topic_created with _ | nm3 <;>
      try rcases onm with _ | nm2
    all_goals
      simp [update_chat_title_active_chats, update_chat_title_image_counts,
        update_chat_title_message_topics, update_topic_title_active_chats,
        update_topic_title_image_counts, update_topic_title_message_topics,
        apply_ite (fun x : Database => x.active_chats),
        apply_ite (fun x : Database => x.image_counts),
        apply_ite (fun x : Database => x.message_topics)]

/-- `increment_image_count` only touches the `image_counts` table. -/
theorem increment_image_count_frame (s : Database) (today : Nat) (c t n : Int) :
    (increment_image_count s today c t n).active_chats = s.active_chats ∧
    (increment_image_count s today c t n).message_topics = s.message_topics := by
  unfold increment_image_count
  split <;> exact ⟨rfl, rfl⟩

/-- `is_chat_active` only reads the `active_chats` table. -/
theorem is_chat_active_congr {s1 s2 : Database}
    (h : s1.active_chats = s2.active_chats) (c : Int) :
    is_chat_active s1 c = is_chat_active s2 c := by
  unfold is_chat_active
  rw [h]

/-- `get_image_count` only reads the `image_counts` table. -/
theorem get_image_count_congr {s1 s2 : Database}
    (h : s1.image_counts = s2.image_counts) (c t : Int) (d : Nat) :
    get_image_count s1 c t d = get_image_count s2 c t d := by
  unfold get_image_count
  rw [h]

/-! ### Batch loop lemmas -/

/-- Every operation emitted by the batch loop is a write of a nonempty block
of at most `SYNC_BATCH_SIZE` rows. -/
theorem batch_ops_shape (rows : List (List Cell)) (i : Nat) :
    ∀ op ∈ batch_ops rows i, ∃ j v, op = SinkOp.writeBatch j v ∧
      v.length ≤ SYNC_BATCH_SIZE ∧ v ≠ [] := by
  rw [batch_ops]
  split
  · simp
  · rename_i hrows
    intro op hop
    rcases List.mem_cons.mp hop with hop | hop
    · refine ⟨i + 2, rows.take SYNC_BATCH_SIZE, hop, ?_, ?_⟩
      · simpa using List.length_take_le SYNC_BATCH_SIZE rows
      · simp [List.take_eq_nil_iff, hrows, SYNC_BATCH_SIZE]
    · exact batch_ops_shape (rows.drop SYNC_BATCH_SIZE) (i + SYNC_BATCH_SIZE) op hop
termination_by rows.length
decreasing_by
  simp only [List.length_drop]
  refine Nat.sub_lt (List.length_pos.mpr ?_) (by decide)
  assumption

/-- The blocks written by the batch loop, concatenated in emission order,
are exactly the row list it was given. -/
theorem batch_ops_join (rows : List (List Cell)) (i : Nat) :
    ((batch_ops rows i).map batch_values).flatten = rows := by
  rw [batch_ops]
  split
  · simp [*]
  · rename_i hrows
    simp only [List.map_cons, List.flatten_cons, batch_values]
    rw [batch_ops_join (rows.drop SYNC_BATCH_SIZE) (i + SYNC_BATCH_SIZE)]
    exact List.take_append_drop SYNC_BATCH_SIZE rows
termination_by rows.length
decreasing_by
  simp only [List.length_drop]
  refine Nat.sub_lt (List.length_pos.mpr ?_) (by decide)
  assumption

/-! ### Claim theorems -/

/-- C5: for a chat id that is not currently registered, `add_active_chat`
returns `true`, a second `add_active_chat` on the same id returns `false`
(the duplicate-key violation is converted to the boolean result, modelled by
the operation being a total function into `Bool`), and `is_chat_active`
reflects the net effect: `true` once added (also after the duplicate
attempt), `false` after `remove_active_chat`. -/
theorem add_active_chat_round_trip_spec (s : Database) (d1 d2 : Nat) (c : Int)
    (h : is_chat_active s c = false) :
    (add_active_chat s d1 c).1 = true ∧
    (add_active_chat (add_active_chat s d1 c).2 d2 c).1 = false ∧
    is_chat_active (add_active_chat s d1 c).2 c = true ∧
    is_chat_active (add_active_chat (add_active_chat s d1 c).2 d2 c).2 c = true ∧
    is_chat_active
      (remove_active_chat
        (add_active_chat (add_active_chat s d1 c).2 d2 c).2 c).2 c = false := by
  have h' : s.active_chats.any (fun r => r.chat_id == c) = false := h
  have hs1 : add_active_chat s d1 c =
      (true, { s with active_chats := s.active_chats ++ [⟨c, d1, "Не указан"⟩] }) := by
    unfold add_active_chat
    rw [h']
    simp
  have hact1 : is_chat_active (add_active_chat s d1 c).2 c = true := by
    rw [hs1]
    simp [is_chat_active, List.any_append]
  have hdup : ∀ x : Database, is_chat_active x c = true →
      add_active_chat x d2 c = (false, x) := by
    intro x hx
    unfold add_active_chat
    rw [show x.active_chats.any (fun r => r.chat_id == c) = true from hx]
    simp
  have hs2 : add_active_chat (add_active_chat s d1 c).2 d2 c =
      (false, (add_active_chat s d1 c).2) := hdup _ hact1
  refine ⟨by rw [hs1], by rw [hs2], hact1, by rw [hs2]; exact hact1, ?_⟩
  rw [hs2]
  have := any_filter_not (fun r : ActiveChatRow => r.chat_id == c)
    (add_active_chat s d1 c).2.active_chats
  simpa [is_chat_active, remove_active_chat] using this

/-- C5 witness at chat id `100` on the empty database. -/
theorem add_active_chat_round_trip_witness :
    (add_active_chat emptyDb 0 100).1 = true ∧
    (add_active_chat (add_active_chat emptyDb 0 100).2 1 100).1 = false ∧
    is_chat_active (add_active_chat emptyDb 0 100).2 100 = true ∧
    is_chat_active (add_active_chat (add_active_chat emptyDb 0 100).2 1 100).2 100 = true ∧
    is_chat_active
      (remove_active_chat
        (add_active_chat (add_active_chat emptyDb 0 100).2 1 100).2 100).2 100 = false :=
  add_active_chat_round_trip_spec emptyDb 0 1 100 (by decide)

/-- C4: starting from a day with no stored `(chat, topic, today)` row, a
finite sequence of `increment_image_count(c, t, n)` calls leaves the stored
count equal to the sum of all the `n` values, in every order of the calls
(`ns'` ranges over all permutations of the multiset `ns`). -/
theorem increment_image_count_sum_spec (s : Database) (today : Nat) (c t : Int)
    (ns ns' : List Int) (h : get_image_count s c t today = 0)
    (hperm : ns'.Perm ns) :
    get_image_count (apply_increments s today c t ns') c t today = ns.sum := by
  rw [get_image_count_apply_increments, h, hperm.sum_eq]
  ring

/-- C4 witness: the calls `+1, +2` and the transposed order `+2, +1` both
leave count `3` on the empty database. -/
theorem increment_image_count_sum_witness :
    get_image_count (apply_increments emptyDb 7 1 2 [2, 1]) 1 2 7 =
      ([1, 2] : List Int).sum ∧
    get_image_count (apply_increments emptyDb 7 1 2 [1, 2]) 1 2 7 =
      ([1, 2] : List Int).sum :=
  ⟨increment_image_count_sum_spec emptyDb 7 1 2 [1, 2] [2, 1] (by decide) (by decide),
   increment_image_count_sum_spec emptyDb 7 1 2 [1, 2] [1, 2] (by decide) (by decide)⟩

/-- C10: `remove_active_chat` mutates only the `active_chats` table: image
counts, reaction counts, chat titles, topic titles (with their types) and
message→topic index rows — of every chat — are unchanged, whether or not the
chat was registered. -/
theorem remove_active_chat_frame_spec (s : Database) (c : Int) :
    (remove_active_chat s c).2.image_counts = s.image_counts ∧
    (remove_active_chat s c).2.reaction_counts = s.reaction_counts ∧
    (remove_active_chat s c).2.chat_titles = s.chat_titles ∧
    (remove_active_chat s c).2.topic_titles = s.topic_titles ∧
    (remove_active_chat s c).2.message_topics = s.message_topics :=
  ⟨rfl, rfl, rfl, rfl, rfl⟩

/-- C9: `get_topic_title` resolves topic id `0` to `"General"` regardless of
the stored rows; for a nonzero topic id with no stored row it synthesizes
`"Топик N"`; `get_chat_title` with no stored row renders the raw chat id. -/
theorem title_fallback_spec (s : Database) (c t : Int) :
    get_topic_title s c 0 = "General" ∧
    (topic_row s c t = none → t ≠ 0 → get_topic_title s c t = s!"Топик {t}") ∧
    (s.chat_titles.find? (fun r => r.chat_id == c) = none →
      get_chat_title s c = toString c) := by
  refine ⟨rfl, ?_, ?_⟩
  · intro hnone ht
    unfold get_topic_title
    rw [if_neg (by simpa using ht), hnone]
  · intro hnone
    unfold get_chat_title
    rw [hnone]

/-- C9 witness: on a database storing a row only for topic `(100, 5)`,
topic `0` of chat `100` is `"General"` even though chat `100` has rows,
topic `7` falls back to `"Топик 7"`, and the title of the unstored chat
`-42` is `"-42"`. -/
theorem title_fallback_witness :
    get_topic_title sampleDb 100 0 = "General" ∧
    get_topic_title sampleDb 100 7 = "Топик 7" ∧
    get_chat_title sampleDb (-42) = "-42" :=
  ⟨(title_fallback_spec sampleDb 100 7).1,
   (title_fallback_spec sampleDb 100 7).2.1 (by decide) (by decide),
   (title_fallback_spec sampleDb (-42) 0).2.2 (by decide)⟩

/-- C2: starting from a day with no stored reaction row for the
`(chat, topic)`, a finite sequence of `update_reaction_count` calls with
signed deltas keeps both stored counts nonnegative after every prefix of the
sequence, and afterwards each column equals the result of applying that
column's deltas one at a time with clamping at zero at each step
(`clamp_fold`). -/
theorem reaction_deltas_clamped_spec (s : Database) (today : Nat) (c t : Int)
    (deltas : List (Int × Int))
    (h : get_reaction_counts s c t today = (0, 0)) :
    (∀ p q, deltas = p ++ q →
      0 ≤ (get_reaction_counts (apply_reaction_deltas s today c t p) c t today).1 ∧
      0 ≤ (get_reaction_counts (apply_reaction_deltas s today c t p) c t today).2) ∧
    get_reaction_counts (apply_reaction_deltas s today c t deltas) c t today =
      (clamp_fold (deltas.map Prod.fst), clamp_fold (deltas.map Prod.snd)) := by
  constructor
  · intro p q _
    rw [get_reaction_counts_apply today c t p s 0 0 h]
    exact ⟨clamp_foldl_nonneg _ 0 le_rfl, clamp_foldl_nonneg _ 0 le_rfl⟩
  · rw [get_reaction_counts_apply today c t deltas s 0 0 h]
    rfl

/-- C2 witness: the deltas `(+1, 0)`, `(-5, +2)`, `(+3, -1)` on the empty
database leave `(3, 1)`: each column is its own clamped fold, never having
gone negative. -/
theorem reaction_deltas_clamped_witness :
    get_reaction_counts
        (apply_reaction_deltas emptyDb 4 9 2 [(1, 0), (-5, 2), (3, -1)]) 9 2 4 =
      (clamp_fold [1, -5, 3], clamp_fold [0, 2, -1]) ∧
    clamp_fold [1, -5, 3] = 3 ∧ clamp_fold [0, 2, -1] = 1 :=
  ⟨(reaction_deltas_clamped_spec emptyDb 4 9 2 [(1, 0), (-5, 2), (3, -1)]
      (by decide)).2,
   by decide, by decide⟩

/-- C8: `update_topic_title` and `set_topic_type` update title and type
independently: with no stored `(chat, topic)` row, `update_topic_title`
inserts the row with the default type `'Не указан'` and `set_topic_type`
inserts it with the placeholder title `'Топик N'`; with a stored row,
`update_topic_title` overwrites only `title` (leaving `type` as it was) and
`set_topic_type` overwrites only `type` (leaving `title` as it was). -/
theorem topic_title_type_independent_spec (s : Database) (c t : Int)
    (ti ty : String) :
    (topic_row s c t = none →
      topic_row (update_topic_title s c t ti) c t = some ⟨c, t, ti, "Не указан"⟩ ∧
      topic_row (set_topic_type s c t ty).2 c t = some ⟨c, t, s!"Топик {t}", ty⟩) ∧
    (∀ r, topic_row s c t = some r →
      topic_row (update_topic_title s c t ti) c t = some { r with title := ti } ∧
      topic_row (set_topic_type s c t ty).2 c t = some { r with type := ty }) := by
  constructor
  · intro hnone
    have hany : s.topic_titles.any
        (fun r => r.chat_id == c && r.topic_id == t) = false :=
      any_eq_false_iff_find?_eq_none.mpr hnone
    constructor
    · unfold update_topic_title
      rw [hany]
      simp only [Bool.false_eq_true, if_false]
      unfold topic_row
      exact find?_append_singleton hnone (by simp)
    · unfold set_topic_type
      rw [hany]
      simp only [Bool.false_eq_true, if_false]
      unfold topic_row
      exact find?_append_singleton hnone (by simp)
  · intro r hr
    unfold topic_row at hr
    have hany : s.topic_titles.any
        (fun x => x.chat_id == c && x.topic_id == t) = true :=
      any_of_find?_eq_some hr
    have hmap1 := find?_ite_map
      (fun x : TopicTitleRow => x.chat_id == c && x.topic_id == t)
      (fun x => { x with title := ti }) (fun a ha => ha) s.topic_titles
    have hmap2 := find?_ite_map
      (fun x : TopicTitleRow => x.chat_id == c && x.topic_id == t)
      (fun x => { x with type := ty }) (fun a ha => ha) s.topic_titles
    constructor
    · unfold update_topic_title
      rw [hany]
      simp only [if_true]
      unfold topic_row
      dsimp only
      rw [hmap1, hr]
      rfl
    · unfold set_topic_type
      rw [hany]
      simp only [if_true]
      unfold topic_row
      dsimp only
      rw [hmap2, hr]
      rfl

/-- C8 witness: on the sample database, topic `(100, 7)` has no row — a
title update creates it with default type and a type update creates it with
the placeholder title; topic `(100, 5)` has a row — a title update keeps its
type `"Чистота"` and a type update keeps its title `"Уборка"`. -/
theorem topic_title_type_independent_witness :
    topic_row (update_topic_title sampleDb 100 7 "Новый") 100 7 =
      some ⟨100, 7, "Новый", "Не указан"⟩ ∧
    topic_row (set_topic_type sampleDb 100 7 "Продукция").2 100 7 =
      some ⟨100, 7, "Топик 7", "Продукция"⟩ ∧
    topic_row (update_topic_title sampleDb 100 5 "Новый") 100 5 =
      some ⟨100, 5, "Новый", "Чистота"⟩ ∧
    topic_row (set_topic_type sampleDb 100 5 "Продукция").2 100 5 =
      some ⟨100, 5, "Уборка", "Продукция"⟩ :=
  ⟨((topic_title_type_independent_spec sampleDb 100 7 "Новый" "Продукция").1
      (by decide)).1,
   ((topic_title_type_independent_spec sampleDb 100 7 "Новый" "Продукция").1
      (by decide)).2,
   ((topic_title_type_independent_spec sampleDb 100 5 "Новый" "Продукция").2
      ⟨100, 5, "Уборка", "Чистота"⟩ (by decide)).1,
   ((topic_title_type_independent_spec sampleDb 100 5 "Новый" "Продукция").2
      ⟨100, 5, "Уборка", "Чистота"⟩ (by decide)).2⟩

/-- C6: `cleanup_old_message_topics(N)` keeps a stored index row exactly when
it is not older than `N` days before the current day, adds nothing, returns
the number of rows deleted, and with zero matching rows returns `0` and
leaves the database unchanged. -/
theorem cleanup_old_message_topics_spec (s : Database) (today days : Nat) :
    (∀ r ∈ s.message_topics,
      (r ∈ (cleanup_old_message_topics s today days).2.message_topics ↔
        ¬ (r.created_at + days < today))) ∧
    (∀ r ∈ (cleanup_old_message_topics s today days).2.message_topics,
      r ∈ s.message_topics) ∧
    (cleanup_old_message_topics s today days).1 +
        (cleanup_old_message_topics s today days).2.message_topics.length =
      s.message_topics.length ∧
    ((∀ r ∈ s.message_topics, ¬ (r.created_at + days < today)) →
      (cleanup_old_message_topics s today days).1 = 0 ∧
      (cleanup_old_message_topics s today days).2 = s) := by
  refine ⟨?_, ?_, ?_, ?_⟩
  · intro r hr
    simp [cleanup_old_message_topics, List.mem_filter, hr]
  · intro r hr
    simp only [cleanup_old_message_topics, List.mem_filter] at hr
    exact hr.1
  · have key : ∀ l : List MessageTopicRow,
        l.countP (fun r => r.created_at + days < today) +
          (l.filter (fun r => !(r.created_at + days < today : Bool))).length =
        l.length := by
      intro l
      induction l with
      | nil => rfl
      | cons x xs ih =>
        by_cases hx : x.created_at + days < today <;>
          simp [List.countP_cons, List.filter_cons, hx] <;> omega
    simpa [cleanup_old_message_topics] using key s.message_topics
  · intro hnone
    have hfix : s.message_topics.filter
        (fun r => !(r.created_at + days < today : Bool)) = s.message_topics := by
      rw [List.filter_eq_self]
      intro a ha
      simpa using hnone a ha
    constructor
    · simp only [cleanup_old_message_topics]
      rw [List.countP_eq_zero]
      intro a ha
      simpa using hnone a ha
    · simp [cleanup_old_message_topics, hfix]

/-- C6 witness at age `2`, current day `10`: of the two stored rows (created
day `7` and day `9`) exactly the day-`7` one is deleted and `1` is returned;
at age `30` nothing matches, `0` is returned and the store is unchanged. -/
theorem cleanup_old_message_topics_witness :
    ((⟨100, 1, 5, 7⟩ : MessageTopicRow) ∈
        (cleanup_old_message_topics
          { emptyDb with message_topics := [⟨100, 1, 5, 7⟩, ⟨100, 2, 5, 9⟩] }
          10 2).2.message_topics ↔ ¬ (7 + 2 < 10)) ∧
    ((cleanup_old_message_topics
        { emptyDb with message_topics := [⟨100, 1, 5, 7⟩, ⟨100, 2, 5, 9⟩] }
        10 30).1 = 0 ∧
      (cleanup_old_message_topics
        { emptyDb with message_topics := [⟨100, 1, 5, 7⟩, ⟨100, 2, 5, 9⟩] }
        10 30).2 =
        { emptyDb with message_topics := [⟨100, 1, 5, 7⟩, ⟨100, 2, 5, 9⟩] }) :=
  ⟨(cleanup_old_message_topics_spec
      { emptyDb with message_topics := [⟨100, 1, 5, 7⟩, ⟨100, 2, 5, 9⟩] }
      10 2).1 ⟨100, 1, 5, 7⟩ (by decide),
   (cleanup_old_message_topics_spec
      { emptyDb with message_topics := [⟨100, 1, 5, 7⟩, ⟨100, 2, 5, 9⟩] }
      10 30).2.2.2 (by decide)⟩

/-- Membership in an insertion-sorted list. -/
theorem mem_insert_sorted (x a : Nat) (l : List Nat) :
    a ∈ insert_sorted x l ↔ a = x ∨ a ∈ l := by
  induction l with
  | nil => simp [insert_sorted]
  | cons y ys ih =>
    unfold insert_sorted
    by_cases h : x ≤ y
    · simp [h]
    · simp only [h, if_false, List.mem_cons, ih]
      tauto

/-- Sorting the day indices does not change membership. -/
theorem mem_sort_nat (a : Nat) (l : List Nat) : a ∈ sort_nat l ↔ a ∈ l := by
  unfold sort_nat
  induction l with
  | nil => simp
  | cons x xs ih => simp [List.foldr_cons, mem_insert_sorted, ih]

/-- A `(date, city)` pair is visited by the row-building loop exactly when
the date is a stored date and the city is in that date's city list. -/
theorem mem_sync_pairs (s : Database) (d : Nat) (city : String) :
    (d, city) ∈ sync_pairs s ↔
      d ∈ get_unique_dates s ∧ city ∈ get_cities_with_data_for_date s d := by
  simp only [sync_pairs, List.mem_flatMap, List.mem_map, Prod.mk.injEq]
  constructor
  · rintro ⟨d', hd', c', hc', hdeq, hceq⟩
    subst hdeq
    subst hceq
    exact ⟨hd', hc'⟩
  · rintro ⟨hd, hc⟩
    exact ⟨d, hd, city, hc, rfl, rfl⟩

/-- Unfolded membership in `get_cities_with_data_for_date`: the city of some
active chat that has an image-count row at the date on a topic with a
`topic_titles` row whose type is explicitly set. -/
theorem mem_cities_with_data (s : Database) (d : Nat) (city : String) :
    city ∈ get_cities_with_data_for_date s d ↔
      ∃ ac ∈ s.active_chats, ac.city = city ∧
      ∃ ic ∈ s.image_counts, ic.chat_id = ac.chat_id ∧ ic.date = d ∧
      ∃ tt ∈ s.topic_titles, tt.chat_id = ic.chat_id ∧ tt.topic_id = ic.topic_id ∧
        tt.type ≠ "Не указан" := by
  unfold get_cities_with_data_for_date
  simp only [List.mem_dedup, List.mem_map, List.mem_filter, List.any_eq_true,
    Bool.and_eq_true, beq_iff_eq, bne_iff_ne]
  constructor
  · rintro ⟨ac, ⟨hac, ic, hic, ⟨⟨hcid, hdate⟩, tt, htt, ⟨⟨h1, h2⟩, h3⟩⟩⟩, hcity⟩
    exact ⟨ac, hac, hcity, ic, hic, hcid, hdate, tt, htt, h1, h2, h3⟩
  · rintro ⟨ac, hac, hcity, ic, hic, hcid, hdate, tt, htt, h1, h2, h3⟩
    exact ⟨ac, ⟨hac, ic, hic, ⟨⟨hcid, hdate⟩, tt, htt, ⟨⟨h1, h2⟩, h3⟩⟩⟩, hcity⟩

/-- C3: for a stored date, a `(date, city)` row is emitted by the report
loop iff some active chat of that city has an image-count row on that date
whose topic has an explicitly set type (a `topic_titles` row with type other
than `'Не указан'`); and every fixed topic-type column with no counted
activity for that `(city, type, date)` is `0`. -/
theorem report_city_inclusion_spec (s : Database) (d : Nat) (city : String)
    (hd : d ∈ get_unique_dates s) :
    ((d, city) ∈ sync_pairs s ↔
      ∃ ac ∈ s.active_chats, ac.city = city ∧
      ∃ ic ∈ s.image_counts, ic.chat_id = ac.chat_id ∧ ic.date = d ∧
      ∃ tt ∈ s.topic_titles, tt.chat_id = ic.chat_id ∧ tt.topic_id = ic.topic_id ∧
        tt.type ≠ "Не указан") ∧
    (∀ topic_type ∈ TOPIC_TYPES,
      (¬ ∃ ac ∈ s.active_chats, ac.city = city ∧
        ∃ tt ∈ s.topic_titles, tt.chat_id = ac.chat_id ∧ tt.type = topic_type ∧
        ∃ ic ∈ s.image_counts, ic.chat_id = ac.chat_id ∧
          ic.topic_id = tt.topic_id ∧ ic.date = d) →
      get_image_count_by_city_type_date s city topic_type d = 0) := by
  constructor
  · rw [mem_sync_pairs, mem_cities_with_data]
    simp [hd]
  · intro ttype _ hno
    unfold get_image_count_by_city_type_date
    apply List.sum_eq_zero
    intro x hx
    rw [List.mem_map] at hx
    obtain ⟨ac, hacf, hxeq⟩ := hx
    rw [List.mem_filter] at hacf
    obtain ⟨hacmem, haccity⟩ := hacf
    subst hxeq
    apply List.sum_eq_zero
    intro y hy
    rw [List.mem_map] at hy
    obtain ⟨tt, httf, hyeq⟩ := hy
    rw [List.mem_filter] at httf
    obtain ⟨httmem, httkey⟩ := httf
    subst hyeq
    rcases hfind : s.image_counts.find? (fun ic =>
        ic.chat_id == ac.chat_id && ic.topic_id == tt.topic_id && ic.date == d)
      with _ | ic
    · rw [hfind]
    · exfalso
      apply hno
      have hicmem := List.mem_of_find?_eq_some hfind
      have hicp := List.find?_some hfind
      simp only [Bool.and_eq_true, beq_iff_eq] at hicp httkey haccity
      exact ⟨ac, hacmem, haccity, tt, httmem, httkey.1, httkey.2,
        ic, hicmem, hicp.1.1, hicp.1.2, hicp.2⟩

/-- C3 witness: day `0` is stored in the sample database, `(0, "Москва")` is
emitted (chat `100` has counted activity on the typed topic `5`), and the
`"Продукция"` column for `("Москва", 0)` — a type with no activity — is `0`. -/
theorem report_city_inclusion_witness :
    (0, "Москва") ∈ sync_pairs sampleDb ∧
    get_image_count_by_city_type_date sampleDb "Москва" "Продукция" 0 = 0 :=
  ⟨(report_city_inclusion_spec sampleDb 0 "Москва" (by decide)).1.mpr (by decide),
   (report_city_inclusion_spec sampleDb 0 "Москва" (by decide)).2 "Продукция"
     (by decide) (by decide)⟩

/-- C1 (amended): for every photo message whose chat is active, the handler
increments the stored image count for the message's `(chatId, topicId)` and
the current day by exactly `1` — regardless of media-group membership and of
the album-counting toggle — but it records **no** message→topic index entry:
the `message_topics` table is left exactly as it was (`save_message_topic`
exists in the repository but is never invoked by the photo handler). -/
theorem photo_handler_counts_one_no_index (s : Database) (flag : Bool)
    (today : Nat) (m : PhotoMessage)
    (h : is_chat_active s m.chat_id = true) :
    get_image_count (handle_photo s flag today m) m.chat_id (get_topic_id m) today =
      get_image_count s m.chat_id (get_topic_id m) today + 1 ∧
    (handle_photo s flag today m).message_topics = s.message_topics := by
  obtain ⟨hac, hic, hmt⟩ := update_titles_from_message_frame s m
  have hact : is_chat_active (update_titles_from_message s m) m.chat_id = true := by
    rw [is_chat_active_congr hac]
    exact h
  have hcount : (if flag then (1 : Int)
      else if m.media_group_id.isSome then 1 else 1) = 1 := by
    split
    · rfl
    · split <;> rfl
  unfold handle_photo
  dsimp only
  rw [hact]
  simp only [Bool.not_true, Bool.false_eq_true, if_false]
  constructor
  · rw [hcount, get_image_count_increment, get_image_count_congr hic]
  · rw [(increment_image_count_frame _ _ _ _ _).2, hmt]

/-- C1 counterexample: chat `100` is active in the sample database; handling
a photo message with id `42` in topic `5` increments the count to `4` but
leaves the message→topic index empty — `get_topic_by_message` returns
`none` where the claim requires the recorded entry `some 5`. -/
theorem photo_handler_no_index_counterexample :
    is_chat_active sampleDb 100 = true ∧
    get_topic_by_message
      (handle_photo sampleDb COUNT_EACH_PHOTO_IN_ALBUM 0
        ⟨100, some 5, 42, none, none, none, none, none⟩) 100 42 = none ∧
    (handle_photo sampleDb COUNT_EACH_PHOTO_IN_ALBUM 0
        ⟨100, some 5, 42, none, none, none, none, none⟩).message_topics = [] ∧
    get_image_count
      (handle_photo sampleDb COUNT_EACH_PHOTO_IN_ALBUM 0
        ⟨100, some 5, 42, none, none, none, none, none⟩) 100 5 0 = 4 := by
  decide

/-- C1 witness for the amended claim, at the same concrete photo message. -/
theorem photo_handler_counts_one_no_index_witness :
    get_image_count
        (handle_photo sampleDb true 0
          ⟨100, some 5, 42, none, none, none, none, none⟩) 100 5 0 =
      get_image_count sampleDb 100 5 0 + 1 ∧
    (handle_photo sampleDb true 0
        ⟨100, some 5, 42, none, none, none, none, none⟩).message_topics =
      sampleDb.message_topics :=
  photo_handler_counts_one_no_index sampleDb true 0
    ⟨100, some 5, 42, none, none, none, none, none⟩ (by decide)

/-- C7 (amended): on every database, a sync cycle with no data rows — no
stored dates, or every city filtered out by the typed-topic restriction —
performs no sink operation at all; and a sync cycle whose aggregated output
has at least one data row clears the remote target fully, then writes the
header row at `A1`, then the data rows in consecutive batches (their blocks
concatenate, in order, to exactly the row list) each a nonempty block of at
most `SYNC_BATCH_SIZE` rows, then auto-resizes the columns. -/
theorem sync_replace_all_amended (s : Database) :
    (sync_rows s = [] → sync_to_sheets s = []) ∧
    (sync_rows s ≠ [] →
      sync_to_sheets s =
        [SinkOp.ensureSheet, SinkOp.clearSheet, SinkOp.writeBatch 1 [headers_row]]
          ++ batch_ops (sync_rows s) 0 ++ [SinkOp.autoResize headers_row.length] ∧
      ((batch_ops (sync_rows s) 0).map batch_values).flatten = sync_rows s ∧
      ∀ op ∈ batch_ops (sync_rows s) 0, ∃ j v, op = SinkOp.writeBatch j v ∧
        v.length ≤ SYNC_BATCH_SIZE ∧ v ≠ []) := by
  constructor
  · intro hrows
    unfold sync_to_sheets
    by_cases hd : get_unique_dates s = []
    · rw [if_pos hd]
    · rw [if_neg hd]
      dsimp only
      rw [if_pos hrows]
  · intro hrows
    have hdates : ¬ get_unique_dates s = [] := by
      intro hd
      apply hrows
      unfold sync_rows sync_pairs
      rw [hd]
      rfl
    refine ⟨?_, batch_ops_join _ _, batch_ops_shape _ _⟩
    unfold sync_to_sheets
    rw [if_neg hdates]
    dsimp only
    rw [if_neg hrows]

/-- C7 counterexample: a sync cycle over the empty database performs no sink
operation at all — in particular the remote target surface is never cleared
and no header row is written, against the claim's "every sync cycle". -/
theorem sync_empty_counterexample :
    sync_to_sheets emptyDb = [] ∧ SinkOp.clearSheet ∉ sync_to_sheets emptyDb := by
  refine ⟨rfl, ?_⟩
  intro hmem
  rw [show sync_to_sheets emptyDb = [] from rfl] at hmem
  cases hmem

/-- C7 witness for both halves of the amended claim: the populated sample
database yields the full clear/header/batches/resize trace, while a database
that has a stored date (day `0` for chat `100`, topic `5`) but no
`topic_titles` row — so every city is filtered out and the row list is
empty — yields no sink operation at all. -/
theorem sync_replace_all_witness :
    sync_to_sheets sampleDb =
      [SinkOp.ensureSheet, SinkOp.clearSheet, SinkOp.writeBatch 1 [headers_row]]
        ++ batch_ops (sync_rows sampleDb) 0
        ++ [SinkOp.autoResize headers_row.length] ∧
    get_unique_dates
        { emptyDb with active_chats := [⟨100, 0, "Москва"⟩],
                       image_counts := [⟨100, 5, 0, 3⟩] } ≠ [] ∧
    sync_to_sheets
        { emptyDb with active_chats := [⟨100, 0, "Москва"⟩],
                       image_counts := [⟨100, 5, 0, 3⟩] } = [] :=
  ⟨((sync_replace_all_amended sampleDb).2 (by decide)).1,
   by decide,
   (sync_replace_all_amended
      { emptyDb with active_chats := [⟨100, 0, "Москва"⟩],
                     image_counts := [⟨100, 5, 0, 3⟩] }).1 (by decide)⟩

end ImageCounterBot
